import Mathlib

/-!
Shallow embedding of the check-in / verification protocol of the
class-mate-checker repository.

The two server handlers (the `verify-attendance` and `esp32-rfid-checkin`
Deno edge functions) are modelled as state-passing functions over a `Store`
holding the relevant database tables of the Supabase migrations.  Numeric
coordinates and distances are modelled as rationals; timestamps as integers
(milliseconds).  The JavaScript `Math` primitives used by the Haversine
routine are abstracted into a `JsMath` record of operations, so both
duplicated `calculateDistance` implementations are embedded as the exact
expression trees of the source over those primitives.
-/

namespace ClassMateChecker

/-- Abstraction of the JavaScript Math primitives used by `calculateDistance`.
The handlers are parametric in these operations; every theorem quantifies
over them, so nothing depends on a particular numeric model of JS doubles. -/
structure JsMath where
  pi : ℚ
  sin : ℚ → ℚ
  cos : ℚ → ℚ
  sqrt : ℚ → ℚ
  atan2 : ℚ → ℚ → ℚ

/-- Status column of `attendance_records`; the SQL CHECK constraint limits it
to exactly these three values. -/
inductive RecordStatus where
  | pending
  | present
  | absent
  deriving Repr, DecidableEq

/-- Row of the `verification_links` table (audit columns omitted). -/
structure VerificationLink where
  id : Nat
  session_id : Nat
  student_id : Nat
  token : String
  esp32_latitude : ℚ
  esp32_longitude : ℚ
  expires_at : Int
  is_used : Bool
  deriving Repr, DecidableEq

/-- Row of the `attendance_records` table (audit columns omitted). -/
structure AttendanceRecord where
  id : Nat
  session_id : Nat
  student_id : Nat
  status : RecordStatus
  check_in_time : Option Int
  student_latitude : Option ℚ
  student_longitude : Option ℚ
  esp32_latitude : Option ℚ
  esp32_longitude : Option ℚ
  distance_meters : Option ℚ
  verification_method : Option String
  deriving Repr, DecidableEq

/-- Row of the `attendance_notifications` table. -/
structure AttendanceNotification where
  student_id : Nat
  session_id : Nat
  message : String
  kind : String
  deriving Repr, DecidableEq

/-- Row of the `subjects` table (columns the handlers read). -/
structure Subject where
  id : Nat
  name : String
  code : String
  deriving Repr, DecidableEq

/-- Row of the `attendance_sessions` table (columns the handlers read). -/
structure AttendanceSession where
  id : Nat
  subject_id : Nat
  esp32_device_id : Option String
  is_active : Bool
  deriving Repr, DecidableEq

/-- Row of the `profiles` table (columns the handlers read). -/
structure Profile where
  user_id : Nat
  student_id : String
  role : String
  full_name : String
  deriving Repr, DecidableEq

/-- The durable store: the tables touched by the two handlers. -/
structure Store where
  subjects : List Subject
  attendance_sessions : List AttendanceSession
  profiles : List Profile
  verification_links : List VerificationLink
  attendance_records : List AttendanceRecord
  attendance_notifications : List AttendanceNotification
  deriving Repr, DecidableEq

/-- Responses of the two handlers, as the JSON bodies they serialize. -/
inductive HandlerResponse where
  | err (httpStatus : Nat) (error : String)
  | confirmOk (status : RecordStatus) (distance_meters : Int) (within_range : Bool)
      (session : String) (message : String)
  | checkinOk (message : String) (student_name : String) (session : String)
      (verification_url : String) (expires_in_minutes : Nat)
  deriving Repr, DecidableEq

/-- Request body of `verify-attendance`. -/
structure ConfirmInput where
  token : String
  student_latitude : ℚ
  student_longitude : ℚ
  deriving Repr, DecidableEq

/-- Request body of `esp32-rfid-checkin`. -/
structure CheckinInput where
  esp32_device_id : String
  student_rfid : String
  latitude : ℚ
  longitude : ℚ
  deriving Repr, DecidableEq

/-- Injected collaborator-write failures in `verify-attendance`: the handler
checks each write's error object, so each write may independently fail. -/
structure Faults where
  updateRecordFails : Bool
  markUsedFails : Bool
  notifyFails : Bool
  deriving Repr, DecidableEq

/-- Run with every store write succeeding. -/
def noFaults : Faults := ⟨false, false, false⟩

/-- Injected collaborator-write failures in `esp32-rfid-checkin` for the two
writes whose errors the handler only logs. -/
structure CheckinFaults where
  notifyFails : Bool
  recordInsertFails : Bool
  deriving Repr, DecidableEq

/-- Run with every store write succeeding. -/
def noCheckinFaults : CheckinFaults := ⟨false, false⟩

/-- Values the `esp32-rfid-checkin` handler obtains from its environment:
the `crypto.randomUUID()` token, the generated row ids, and the URL stem
derived from the SUPABASE_URL environment variable. -/
structure IssueEnv where
  freshToken : String
  freshLinkId : Nat
  freshRecordId : Nat
  baseUrl : String
  deriving Repr, DecidableEq

/-- Semantics of PostgREST `.single()`: exactly one row or an error. -/
def singleRow {α : Type} (rows : List α) : Option α :=
  match rows with
  | [a] => some a
  | _ => none

/-- JavaScript `Math.round`: round half up. -/
def jsRound (q : ℚ) : Int := ⌊q + 1 / 2⌋

/-- Embedding of the server-side `calculateDistance` of the
`verify-attendance` function: Haversine with the Earth radius written
`6371000`. -/
def calculateDistance (M : JsMath) (lat1 lon1 lat2 lon2 : ℚ) : ℚ :=
  let R : ℚ := 6371000
  let phi1 := lat1 * M.pi / 180
  let phi2 := lat2 * M.pi / 180
  let dPhi := (lat2 - lat1) * M.pi / 180
  let dLam := (lon2 - lon1) * M.pi / 180
  let a := M.sin (dPhi / 2) * M.sin (dPhi / 2) +
    M.cos phi1 * M.cos phi2 * M.sin (dLam / 2) * M.sin (dLam / 2)
  let c := 2 * M.atan2 (M.sqrt a) (M.sqrt (1 - a))
  R * c

/-- Embedding of the client-side `calculateDistance` of the location
verification page: Haversine with the Earth radius written `6371e3`
(the scientific literal denotes 6371 times 10 cubed exactly). -/
def calculateDistanceClient (M : JsMath) (lat1 lon1 lat2 lon2 : ℚ) : ℚ :=
  let R : ℚ := 6371 * 10 ^ 3
  let phi1 := lat1 * M.pi / 180
  let phi2 := lat2 * M.pi / 180
  let dPhi := (lat2 - lat1) * M.pi / 180
  let dLam := (lon2 - lon1) * M.pi / 180
  let a := M.sin (dPhi / 2) * M.sin (dPhi / 2) +
    M.cos phi1 * M.cos phi2 * M.sin (dLam / 2) * M.sin (dLam / 2)
  let c := 2 * M.atan2 (M.sqrt a) (M.sqrt (1 - a))
  R * c

/-- The token lookup of `verify-attendance`: select from `verification_links`
where `token` matches and `is_used = false`, through `.single()`. -/
def findVerificationLink (st : Store) (token : String) : Option VerificationLink :=
  singleRow (st.verification_links.filter fun l =>
    decide (l.token = token ∧ l.is_used = false))

/-- Distance computed inside `verify-attendance`: from the confirmer's
submitted coordinates to the reader coordinates snapshotted on the link. -/
def confirmDistance (M : JsMath) (inp : ConfirmInput) (link : VerificationLink) : ℚ :=
  calculateDistance M inp.student_latitude inp.student_longitude
    link.esp32_latitude link.esp32_longitude

/-- Resolution of the nested select `attendance_sessions ( subjects (name) )`
joined onto a verification link; `none` models a null join, whose later
dereference throws and lands in the handler's catch-all. -/
def sessionSubjectName (st : Store) (session_id : Nat) : Option String :=
  match st.attendance_sessions.find? (fun s => decide (s.id = session_id)) with
  | none => none
  | some s =>
    match st.subjects.find? (fun j => decide (j.id = s.subject_id)) with
    | none => none
    | some subj => some subj.name

/-- The conditional update of `verify-attendance` applied to one row: set the
outcome fields on every row matching `session_id`, `student_id` and
`status = 'pending'`, leaving every other row unchanged. -/
def transitionRecord (link : VerificationLink) (status : RecordStatus) (now : Int)
    (slat slon d : ℚ) (r : AttendanceRecord) : AttendanceRecord :=
  if r.session_id = link.session_id ∧ r.student_id = link.student_id ∧
      r.status = RecordStatus.pending then
    { r with
      status := status
      check_in_time := some now
      student_latitude := some slat
      student_longitude := some slon
      distance_meters := some d }
  else r

/-- The write of `verify-attendance` marking the link consumed, applied to one
row: set `is_used` on the row whose `id` matches, leave the rest unchanged. -/
def markTokenUsed (linkId : Nat) (l : VerificationLink) : VerificationLink :=
  if l.id = linkId then { l with is_used := true } else l

/-- Notification text of `verify-attendance`. -/
def confirmNotificationMessage (within : Bool) (subjectName : String) (d : ℚ) : String :=
  if within then
    "✅ Attendance confirmed for " ++ subjectName ++ "! You were within range."
  else
    "❌ Attendance marked as absent for " ++ subjectName ++ ". You were " ++
      toString (jsRound d) ++ "m away (max 100m allowed)."

/-- Response message of `verify-attendance`. -/
def confirmResponseMessage (within : Bool) (d : ℚ) : String :=
  if within then "Attendance confirmed successfully!"
  else "You were too far from the classroom (" ++ toString (jsRound d) ++
    "m away, max 100m allowed)"

/-- Embedding of the `verify-attendance` handler (the Confirm operation).
Both `new Date()` calls inside one request are modelled as the single
instant `now`.  Store writes whose error object the handler inspects are
made to fail through `f`; a failing logged-only write leaves its table
unchanged without affecting the response, exactly as the source does. -/
def verifyAttendance (M : JsMath) (f : Faults) (st : Store) (inp : ConfirmInput)
    (now : Int) : Store × HandlerResponse :=
  match findVerificationLink st inp.token with
  | none => (st, .err 404 "Invalid or expired verification link")
  | some link =>
    if now > link.expires_at then
      (st, .err 400 "Verification link has expired")
    else
      let distance := confirmDistance M inp link
      let isWithinRange : Bool := decide (distance ≤ 100)
      let attendanceStatus := if isWithinRange then RecordStatus.present
        else RecordStatus.absent
      if f.updateRecordFails then
        (st, .err 500 "Failed to update attendance record")
      else
        let recs := st.attendance_records.map (transitionRecord link attendanceStatus
          now inp.student_latitude inp.student_longitude distance)
        let st1 : Store := { st with attendance_records := recs }
        let markedLinks := st1.verification_links.map (markTokenUsed link.id)
        let st2 : Store := if f.markUsedFails then st1
          else { st1 with verification_links := markedLinks }
        match sessionSubjectName st link.session_id with
        | none => (st2, .err 500 "Internal server error")
        | some subjectName =>
          let st3 : Store := if f.notifyFails then st2
            else { st2 with attendance_notifications := st2.attendance_notifications ++
              [{ student_id := link.student_id
                 session_id := link.session_id
                 message := confirmNotificationMessage isWithinRange subjectName distance
                 kind := if isWithinRange then "attendance_confirmed"
                   else "attendance_failed" }] }
          (st3, .confirmOk attendanceStatus (jsRound distance) isWithinRange subjectName
            (confirmResponseMessage isWithinRange distance))

/-- Embedding of the `esp32-rfid-checkin` handler (the Issue operation).
The `verification_links` insert fails exactly on a UNIQUE violation of the
`token` column; the notification and attendance-record inserts are
logged-only writes made to fail through `f`. -/
def esp32RfidCheckin (env : IssueEnv) (f : CheckinFaults) (st : Store)
    (inp : CheckinInput) (now : Int) : Store × HandlerResponse :=
  match singleRow (st.attendance_sessions.filter fun s =>
      decide (s.esp32_device_id = some inp.esp32_device_id ∧ s.is_active = true)) with
  | none => (st, .err 404 "No active session found for this device")
  | some session =>
    match singleRow (st.profiles.filter fun p =>
        decide (p.student_id = inp.student_rfid ∧ p.role = "student")) with
    | none => (st, .err 404 "Student not found with provided RFID")
    | some student =>
      let expires_at := now + 5 * 60 * 1000
      if st.verification_links.any (fun l => decide (l.token = env.freshToken)) then
        (st, .err 500 "Failed to create verification link")
      else
        let newLink : VerificationLink :=
          { id := env.freshLinkId
            session_id := session.id
            student_id := student.user_id
            token := env.freshToken
            esp32_latitude := inp.latitude
            esp32_longitude := inp.longitude
            expires_at := expires_at
            is_used := false }
        let st1 : Store := { st with verification_links :=
          st.verification_links ++ [newLink] }
        match st.subjects.find? (fun j => decide (j.id = session.subject_id)) with
        | none => (st1, .err 500 "Internal server error")
        | some subj =>
          let st2 : Store := if f.notifyFails then st1
            else { st1 with attendance_notifications := st1.attendance_notifications ++
              [{ student_id := student.user_id
                 session_id := session.id
                 message := "RFID detected! Tap the verification link to confirm your attendance for "
                   ++ subj.name
                 kind := "verification_pending" }] }
          let st3 : Store := if f.recordInsertFails then st2
            else { st2 with attendance_records := st2.attendance_records ++
              [{ id := env.freshRecordId
                 session_id := session.id
                 student_id := student.user_id
                 status := RecordStatus.pending
                 check_in_time := none
                 student_latitude := none
                 student_longitude := none
                 esp32_latitude := some inp.latitude
                 esp32_longitude := some inp.longitude
                 distance_meters := none
                 verification_method := some "rfid" }] }
          (st3, .checkinOk "RFID detected successfully" student.full_name subj.name
            (env.baseUrl ++ "/verify/" ++ env.freshToken) 5)

/-- Control point of one in-flight `verify-attendance` request, between its
atomic store operations.  The joined subject name and the computed distance
travel with the request exactly as the selected row and local variables do
in the source. -/
inductive ConfirmPhase where
  | start
  | updateRec (link : VerificationLink) (subjectName : Option String) (d : ℚ)
  | markUsed (link : VerificationLink) (subjectName : Option String) (d : ℚ)
  | notify (link : VerificationLink) (subjectName : Option String) (d : ℚ)
  | finished (resp : HandlerResponse)
  deriving Repr, DecidableEq

/-- One atomic store operation of a `verify-attendance` request (fault-free
run).  The handler issues four separate store calls — the SELECT of the
link, the conditional UPDATE of `attendance_records`, the UPDATE setting
`is_used`, and the notification INSERT — with only local computation in
between, so these are the units any concurrent request can interleave
with. -/
def confirmStep (M : JsMath) (inp : ConfirmInput) (now : Int) :
    Store × ConfirmPhase → Store × ConfirmPhase
  | (st, .start) =>
    match findVerificationLink st inp.token with
    | none => (st, .finished (.err 404 "Invalid or expired verification link"))
    | some link =>
      if now > link.expires_at then
        (st, .finished (.err 400 "Verification link has expired"))
      else
        (st, .updateRec link (sessionSubjectName st link.session_id)
          (confirmDistance M inp link))
  | (st, .updateRec link subjectName d) =>
    let w : Bool := decide (d ≤ 100)
    let status := if w then RecordStatus.present else RecordStatus.absent
    let recs := st.attendance_records.map (transitionRecord link status now
      inp.student_latitude inp.student_longitude d)
    ({ st with attendance_records := recs }, .markUsed link subjectName d)
  | (st, .markUsed link subjectName d) =>
    let links := st.verification_links.map (markTokenUsed link.id)
    ({ st with verification_links := links }, .notify link subjectName d)
  | (st, .notify link subjectName d) =>
    match subjectName with
    | none => (st, .finished (.err 500 "Internal server error"))
    | some name =>
      let w : Bool := decide (d ≤ 100)
      ({ st with attendance_notifications := st.attendance_notifications ++
          [{ student_id := link.student_id
             session_id := link.session_id
             message := confirmNotificationMessage w name d
             kind := if w then "attendance_confirmed" else "attendance_failed" }] },
       .finished (.confirmOk (if w then RecordStatus.present else RecordStatus.absent)
         (jsRound d) w name (confirmResponseMessage w d)))
  | (st, .finished r) => (st, .finished r)

/-- Run one `verify-attendance` request to completion with no interference
(every request finishes within four store operations). -/
def runConfirmAlone (M : JsMath) (inp : ConfirmInput) (now : Int) (st : Store) :
    Store × ConfirmPhase :=
  confirmStep M inp now (confirmStep M inp now (confirmStep M inp now
    (confirmStep M inp now (st, ConfirmPhase.start))))

/-- Interleave two concurrent `verify-attendance` requests over the shared
store: `true` in the schedule lets request A take its next atomic store
operation, `false` lets request B. -/
def runSchedule (M : JsMath) (inpA inpB : ConfirmInput) (now : Int) :
    List Bool → Store × ConfirmPhase × ConfirmPhase → Store × ConfirmPhase × ConfirmPhase
  | [], s => s
  | b :: rest, (st, pa, pb) =>
    if b then
      let sp := confirmStep M inpA now (st, pa)
      runSchedule M inpA inpB now rest (sp.1, sp.2, pb)
    else
      let sp := confirmStep M inpB now (st, pb)
      runSchedule M inpA inpB now rest (sp.1, pa, sp.2)

/-!
Concrete fixtures used by counterexamples and witnesses.
-/

/-- Trivial instantiation of the JavaScript Math primitives; with it the
Haversine expression evaluates to 0 for all inputs, which is all the
state-machine fixtures need. -/
def M0 : JsMath := ⟨0, fun x => x, fun x => x, fun x => x, fun y _ => y⟩

/-- Sample subject row. -/
def subj1 : Subject := ⟨10, "Math", "M101"⟩

/-- Sample active session row for subject `subj1`. -/
def sess1 : AttendanceSession := ⟨1, 10, some "dev1", true⟩

/-- Sample student profile row. -/
def stud1 : Profile := ⟨100, "RFID1", "student", "Alice Smith"⟩

/-- Sample unconsumed verification link for `(sess1, stud1)` expiring at
time 1000. -/
def link1 : VerificationLink := ⟨5, 1, 100, "tok1", 0, 0, 1000, false⟩

/-- Sample pending attendance record for `(sess1, stud1)`. -/
def rec1 : AttendanceRecord :=
  ⟨7, 1, 100, RecordStatus.pending, none, none, none, some 0, some 0, none, some "rfid"⟩

/-- Sample store: one subject, one active session, one student, one
unconsumed link, one pending record. -/
def st0 : Store := ⟨[subj1], [sess1], [stud1], [link1], [rec1], []⟩

/-- Confirm request for the sample token from the reader's own position. -/
def cInp1 : ConfirmInput := ⟨"tok1", 0, 0⟩

/-- Issue request matching `sess1` and `stud1`. -/
def kInp1 : CheckinInput := ⟨"dev1", "RFID1", 0, 0⟩

/-- Environment for a first Issue call. -/
def env1 : IssueEnv := ⟨"tokA", 21, 31, "https://app.example"⟩

/-- Environment for a second Issue call with a distinct fresh token. -/
def env2 : IssueEnv := ⟨"tokB", 22, 32, "https://app.example"⟩

/-- Fault assignment in which only the write marking the link used fails. -/
def fMark : Faults := ⟨false, true, false⟩

/-- The sample link already consumed. -/
def linkUsed : VerificationLink := { link1 with is_used := true }

/-- The sample record already resolved to present. -/
def recPresent : AttendanceRecord := { rec1 with status := RecordStatus.present }

/-- Sample store whose lone record for `(sess1, stud1)` is not pending. -/
def stNotPending : Store := { st0 with attendance_records := [recPresent] }

/-- Sample store holding no verification link at all. -/
def stMissing : Store := { st0 with verification_links := [] }

/-- Sample store whose only link for the sample token is consumed. -/
def stUsed : Store := { st0 with verification_links := [linkUsed] }

/-- Sample store with no attendance record yet. -/
def stNoRec : Store := { st0 with attendance_records := [] }

/-!
Theorems.  General lemmas about the handlers first, then one theorem per
claim of the specification review, each with its witness or counterexample.
-/

/-- A successful token lookup returns a row of the table that matches the
requested token and is unconsumed. -/
theorem findVerificationLink_mem {st : Store} {t : String} {link : VerificationLink}
    (h : findVerificationLink st t = some link) :
    link ∈ st.verification_links ∧ link.token = t ∧ link.is_used = false := by
  have hmem : link ∈ st.verification_links.filter
      (fun l => decide (l.token = t ∧ l.is_used = false)) := by
    unfold findVerificationLink singleRow at h
    split at h
    next a heq =>
      cases h
      rw [heq]
      exact List.mem_singleton.mpr rfl
    next => cases h
  have hp := List.mem_filter.mp hmem
  exact ⟨hp.1, (of_decide_eq_true hp.2).1, (of_decide_eq_true hp.2).2⟩

/-- When the lookup finds no unconsumed row for the token, the handler
returns the shared 404 error and leaves the store untouched. -/
theorem verifyAttendance_none_eq (M : JsMath) (f : Faults) (st : Store)
    (inp : ConfirmInput) (now : Int)
    (hfind : findVerificationLink st inp.token = none) :
    verifyAttendance M f st inp now =
      (st, HandlerResponse.err 404 "Invalid or expired verification link") := by
  unfold verifyAttendance
  rw [hfind]

/-- When the token is found but past its expiry, the handler returns the
expiry error before performing any write. -/
theorem verifyAttendance_expired_eq (M : JsMath) (f : Faults) (st : Store)
    (inp : ConfirmInput) (now : Int) (link : VerificationLink)
    (hfind : findVerificationLink st inp.token = some link)
    (hexp : now > link.expires_at) :
    verifyAttendance M f st inp now =
      (st, HandlerResponse.err 400 "Verification link has expired") := by
  unfold verifyAttendance
  rw [hfind]
  simp [hexp]

/-- Characterization of the handler on the path where the token is found,
unexpired, the record update succeeds and the joined subject resolves: the
response, the attendance table and the links table of the result. -/
theorem verifyAttendance_success_spec (M : JsMath) (f : Faults) (st : Store)
    (inp : ConfirmInput) (now : Int) (link : VerificationLink) (name : String)
    (hfind : findVerificationLink st inp.token = some link)
    (hexp : ¬ now > link.expires_at)
    (hname : sessionSubjectName st link.session_id = some name)
    (hup : f.updateRecordFails = false) :
    (verifyAttendance M f st inp now).2 =
      HandlerResponse.confirmOk
        (if decide (confirmDistance M inp link ≤ 100) then RecordStatus.present
          else RecordStatus.absent)
        (jsRound (confirmDistance M inp link))
        (decide (confirmDistance M inp link ≤ 100)) name
        (confirmResponseMessage (decide (confirmDistance M inp link ≤ 100))
          (confirmDistance M inp link)) ∧
    (verifyAttendance M f st inp now).1.attendance_records =
      st.attendance_records.map (transitionRecord link
        (if decide (confirmDistance M inp link ≤ 100) then RecordStatus.present
          else RecordStatus.absent) now inp.student_latitude inp.student_longitude
        (confirmDistance M inp link)) ∧
    (verifyAttendance M f st inp now).1.verification_links =
      (if f.markUsedFails then st.verification_links
        else st.verification_links.map (markTokenUsed link.id)) := by
  unfold verifyAttendance
  rw [hfind]
  simp only [hexp, if_false, hup, ite_false, hname]
  by_cases hm : f.markUsedFails <;> by_cases hn : f.notifyFails <;> simp [hm, hn]

/-- Running one `verify-attendance` request through the atomic-step model
with no interference is the same as running the handler in one piece. -/
theorem runConfirmAlone_eq (M : JsMath) (inp : ConfirmInput) (now : Int) (st : Store) :
    runConfirmAlone M inp now st =
      ((verifyAttendance M noFaults st inp now).1,
        ConfirmPhase.finished (verifyAttendance M noFaults st inp now).2) := by
  unfold runConfirmAlone verifyAttendance
  cases hfind : findVerificationLink st inp.token with
  | none => simp [confirmStep, hfind]
  | some link =>
    by_cases hexp : now > link.expires_at
    · simp [confirmStep, hfind, hexp]
    · cases hname : sessionSubjectName st link.session_id with
      | none => simp [confirmStep, hfind, hexp, hname, noFaults]
      | some name => simp [confirmStep, hfind, hexp, hname, noFaults]

/-- Claim C2: a Confirm call on an unconsumed, unexpired token is accepted
exactly when the computed Haversine distance is at most 100 meters; the
matching pending attendance record is transitioned to present or absent
accordingly, recording the confirmation time, the confirmer's coordinates
and the computed distance. -/
theorem C2_accept_iff_within_radius (M : JsMath) (st : Store) (inp : ConfirmInput)
    (now : Int) (link : VerificationLink) (name : String)
    (hfind : findVerificationLink st inp.token = some link)
    (hexp : ¬ now > link.expires_at)
    (hname : sessionSubjectName st link.session_id = some name) :
    (verifyAttendance M noFaults st inp now).2 =
      HandlerResponse.confirmOk
        (if decide (confirmDistance M inp link ≤ 100) then RecordStatus.present
          else RecordStatus.absent)
        (jsRound (confirmDistance M inp link))
        (decide (confirmDistance M inp link ≤ 100)) name
        (confirmResponseMessage (decide (confirmDistance M inp link ≤ 100))
          (confirmDistance M inp link)) ∧
    (verifyAttendance M noFaults st inp now).1.attendance_records =
      st.attendance_records.map (transitionRecord link
        (if decide (confirmDistance M inp link ≤ 100) then RecordStatus.present
          else RecordStatus.absent) now inp.student_latitude inp.student_longitude
        (confirmDistance M inp link)) := by
  have h := verifyAttendance_success_spec M noFaults st inp now link name hfind hexp hname rfl
  exact ⟨h.1, h.2.1⟩

/-- Witness for C2 at the sample store: the token is present and unexpired,
and the call returns the acceptance outcome computed from the distance. -/
theorem C2_accept_iff_within_radius_witness :
    findVerificationLink st0 cInp1.token = some link1 ∧
    ¬ (0:Int) > link1.expires_at ∧
    (verifyAttendance M0 noFaults st0 cInp1 0).2 =
      HandlerResponse.confirmOk
        (if decide (confirmDistance M0 cInp1 link1 ≤ 100) then RecordStatus.present
          else RecordStatus.absent)
        (jsRound (confirmDistance M0 cInp1 link1))
        (decide (confirmDistance M0 cInp1 link1 ≤ 100)) "Math"
        (confirmResponseMessage (decide (confirmDistance M0 cInp1 link1 ≤ 100))
          (confirmDistance M0 cInp1 link1)) :=
  ⟨rfl, by decide,
    (C2_accept_iff_within_radius M0 st0 cInp1 0 link1 "Math" rfl (by decide) rfl).1⟩

/-- Claim C3 counterexample: on the sample store, Confirm at time 2000 on a
token that expired at time 1000 returns the expiry error but does not mark
the token consumed — `is_used` is still false afterwards, contradicting the
claim that the token is still marked consumed. -/
theorem C3_counterexample :
    verifyAttendance M0 noFaults st0 cInp1 2000 =
      (st0, HandlerResponse.err 400 "Verification link has expired") ∧
    st0.verification_links = [link1] ∧ link1.is_used = false :=
  ⟨rfl, rfl, rfl⟩

/-- Claim C3 (amended): a Confirm call past expiry returns the expired
outcome and leaves the whole store — in particular the token's `is_used`
flag — unchanged; the token nonetheless never becomes confirmable, because
every later Confirm call hits the same expiry check. -/
theorem C3_expired_token_left_unconsumed (M : JsMath) (f : Faults) (st : Store)
    (inp : ConfirmInput) (now : Int) (link : VerificationLink)
    (hfind : findVerificationLink st inp.token = some link)
    (hexp : now > link.expires_at) :
    (verifyAttendance M f st inp now).1 = st ∧
    (verifyAttendance M f st inp now).2 =
      HandlerResponse.err 400 "Verification link has expired" ∧
    ∀ now2 : Int, now2 ≥ now →
      (verifyAttendance M f (verifyAttendance M f st inp now).1 inp now2).2 =
        HandlerResponse.err 400 "Verification link has expired" := by
  have h := verifyAttendance_expired_eq M f st inp now link hfind hexp
  refine ⟨by rw [h], by rw [h], ?_⟩
  intro now2 h2
  rw [h]
  have h3 := verifyAttendance_expired_eq M f st inp now2 link hfind (lt_of_lt_of_le hexp h2)
  rw [h3]

/-- Witness for the amended C3 at the sample store. -/
theorem C3_expired_token_left_unconsumed_witness :
    findVerificationLink st0 cInp1.token = some link1 ∧
    (2000:Int) > link1.expires_at ∧
    (verifyAttendance M0 noFaults st0 cInp1 2000).1 = st0 :=
  ⟨rfl, by decide,
    (C3_expired_token_left_unconsumed M0 noFaults st0 cInp1 2000 link1 rfl (by decide)).1⟩

/-- Claim C5 counterexample: a missing token and a consumed token produce
the very same 404 outcome with the same message, so Confirm does not
distinguish `not-found` from `already-used`. -/
theorem C5_counterexample :
    verifyAttendance M0 noFaults stMissing cInp1 0 =
      (stMissing, HandlerResponse.err 404 "Invalid or expired verification link") ∧
    verifyAttendance M0 noFaults stUsed cInp1 0 =
      (stUsed, HandlerResponse.err 404 "Invalid or expired verification link") :=
  ⟨rfl, rfl⟩

/-- Claim C5 (amended): whether the token does not exist or every row for it
is already consumed, Confirm returns the one shared 404 outcome and has no
further effect; the two cases are not distinguished. -/
theorem C5_missing_or_consumed_same_outcome (M : JsMath) (f : Faults) (st : Store)
    (inp : ConfirmInput) (now : Int)
    (hcase : (∀ l ∈ st.verification_links, l.token ≠ inp.token) ∨
      (∀ l ∈ st.verification_links, l.token = inp.token → l.is_used = true)) :
    verifyAttendance M f st inp now =
      (st, HandlerResponse.err 404 "Invalid or expired verification link") := by
  have hnil : st.verification_links.filter
      (fun l => decide (l.token = inp.token ∧ l.is_used = false)) = [] := by
    apply List.filter_eq_nil_iff.mpr
    intro l hl hc
    rcases hcase with hA | hB
    · exact hA l hl (of_decide_eq_true hc).1
    · have hu := hB l hl (of_decide_eq_true hc).1
      rw [(of_decide_eq_true hc).2] at hu
      cases hu
  have hfind : findVerificationLink st inp.token = none := by
    unfold findVerificationLink
    rw [hnil]
    rfl
  exact verifyAttendance_none_eq M f st inp now hfind

/-- Witness for the amended C5 on the store whose sample token is consumed. -/
theorem C5_missing_or_consumed_same_outcome_witness :
    (∀ l ∈ stUsed.verification_links, l.token = cInp1.token → l.is_used = true) ∧
    verifyAttendance M0 noFaults stUsed cInp1 5 =
      (stUsed, HandlerResponse.err 404 "Invalid or expired verification link") := by
  have hB : ∀ l ∈ stUsed.verification_links, l.token = cInp1.token → l.is_used = true := by
    intro l hl _
    rcases List.mem_singleton.mp hl with rfl
    rfl
  exact ⟨hB, C5_missing_or_consumed_same_outcome M0 noFaults stUsed cInp1 5 (Or.inr hB)⟩

/-- Claim C7: a Confirm call strictly after the token's expiry leaves the
attendance table completely unchanged and returns the expired outcome. -/
theorem C7_expired_leaves_record_untouched (M : JsMath) (f : Faults) (st : Store)
    (inp : ConfirmInput) (now : Int) (link : VerificationLink)
    (hfind : findVerificationLink st inp.token = some link)
    (hexp : now > link.expires_at) :
    (verifyAttendance M f st inp now).1.attendance_records = st.attendance_records ∧
    (verifyAttendance M f st inp now).2 =
      HandlerResponse.err 400 "Verification link has expired" := by
  have h := verifyAttendance_expired_eq M f st inp now link hfind hexp
  exact ⟨by rw [h], by rw [h]⟩

/-- Witness for C7 at the sample store. -/
theorem C7_expired_leaves_record_untouched_witness :
    findVerificationLink st0 cInp1.token = some link1 ∧
    (2000:Int) > link1.expires_at ∧
    (verifyAttendance M0 noFaults st0 cInp1 2000).1.attendance_records =
      st0.attendance_records :=
  ⟨rfl, by decide,
    (C7_expired_leaves_record_untouched M0 noFaults st0 cInp1 2000 link1 rfl (by decide)).1⟩

/-- Claim C4 counterexample: on a store whose record for the token's key is
already `present`, Confirm still returns a success response with a computed
status — no `record-not-pending` outcome exists — while the conditional
update leaves the record unchanged and the token is marked consumed. -/
theorem C4_counterexample :
    (verifyAttendance M0 noFaults stNotPending cInp1 0).2 =
      HandlerResponse.confirmOk RecordStatus.present 0 true "Math"
        "Attendance confirmed successfully!" ∧
    (verifyAttendance M0 noFaults stNotPending cInp1 0).1.attendance_records =
      [recPresent] ∧
    (verifyAttendance M0 noFaults stNotPending cInp1 0).1.verification_links =
      [linkUsed] := by
  refine ⟨?_, ?_, ?_⟩ <;>
    norm_num [verifyAttendance, findVerificationLink, singleRow, stNotPending, st0,
      link1, recPresent, rec1, subj1, sess1, stud1, M0, cInp1, confirmDistance,
      calculateDistance, sessionSubjectName, transitionRecord, markTokenUsed, jsRound,
      confirmResponseMessage, linkUsed, noFaults]
  exact fun h => absurd h (by decide)

/-- Claim C4 (amended): when every record for the token's key is out of the
pending state, Confirm leaves the attendance table unchanged and marks the
token consumed, but it surfaces no `record-not-pending` reason: the zero-row
conditional update raises no error and the call still returns the ordinary
success response with the computed status and distance. -/
theorem C4_not_pending_still_success (M : JsMath) (st : Store) (inp : ConfirmInput)
    (now : Int) (link : VerificationLink) (name : String)
    (hfind : findVerificationLink st inp.token = some link)
    (hexp : ¬ now > link.expires_at)
    (hname : sessionSubjectName st link.session_id = some name)
    (hrec : ∀ r ∈ st.attendance_records, r.session_id = link.session_id →
      r.student_id = link.student_id → r.status ≠ RecordStatus.pending) :
    (verifyAttendance M noFaults st inp now).2 =
      HandlerResponse.confirmOk
        (if decide (confirmDistance M inp link ≤ 100) then RecordStatus.present
          else RecordStatus.absent)
        (jsRound (confirmDistance M inp link))
        (decide (confirmDistance M inp link ≤ 100)) name
        (confirmResponseMessage (decide (confirmDistance M inp link ≤ 100))
          (confirmDistance M inp link)) ∧
    (verifyAttendance M noFaults st inp now).1.attendance_records =
      st.attendance_records ∧
    (verifyAttendance M noFaults st inp now).1.verification_links =
      st.verification_links.map (markTokenUsed link.id) := by
  obtain ⟨h1, h2, h3⟩ :=
    verifyAttendance_success_spec M noFaults st inp now link name hfind hexp hname rfl
  refine ⟨h1, ?_, by simpa [noFaults] using h3⟩
  rw [h2]
  have hid : ∀ r ∈ st.attendance_records,
      transitionRecord link
        (if decide (confirmDistance M inp link ≤ 100) then RecordStatus.present
          else RecordStatus.absent) now inp.student_latitude inp.student_longitude
        (confirmDistance M inp link) r = r := by
    intro r hr
    unfold transitionRecord
    rw [if_neg]
    rintro ⟨ha, hb, hc⟩
    exact hrec r hr ha hb hc
  rw [List.map_congr_left hid]
  exact List.map_id' _

/-- Witness for the amended C4 on the store whose record is already present. -/
theorem C4_not_pending_still_success_witness :
    (∀ r ∈ stNotPending.attendance_records, r.session_id = link1.session_id →
      r.student_id = link1.student_id → r.status ≠ RecordStatus.pending) ∧
    (verifyAttendance M0 noFaults stNotPending cInp1 0).1.attendance_records =
      stNotPending.attendance_records := by
  have hrec : ∀ r ∈ stNotPending.attendance_records, r.session_id = link1.session_id →
      r.student_id = link1.student_id → r.status ≠ RecordStatus.pending := by
    intro r hr _ _
    rcases List.mem_singleton.mp hr with rfl
    decide
  exact ⟨hrec,
    (C4_not_pending_still_success M0 stNotPending cInp1 0 link1 "Math" rfl (by decide)
      rfl hrec).2.1⟩

/-- Claim C10: when the write that marks the link used fails, the handler
only logs the error: the response equals the fault-free response, the
attendance table is still transitioned, and the links table keeps the
token's `is_used` flag false. -/
theorem C10_mark_used_failure_keeps_success (M : JsMath) (st : Store)
    (inp : ConfirmInput) (now : Int) (link : VerificationLink) (name : String)
    (hfind : findVerificationLink st inp.token = some link)
    (hexp : ¬ now > link.expires_at)
    (hname : sessionSubjectName st link.session_id = some name) :
    (verifyAttendance M fMark st inp now).2 =
      (verifyAttendance M noFaults st inp now).2 ∧
    (verifyAttendance M fMark st inp now).1.verification_links =
      st.verification_links ∧
    (verifyAttendance M fMark st inp now).1.attendance_records =
      st.attendance_records.map (transitionRecord link
        (if decide (confirmDistance M inp link ≤ 100) then RecordStatus.present
          else RecordStatus.absent) now inp.student_latitude inp.student_longitude
        (confirmDistance M inp link)) ∧
    link.is_used = false := by
  obtain ⟨h1, h2, h3⟩ :=
    verifyAttendance_success_spec M fMark st inp now link name hfind hexp hname rfl
  obtain ⟨g1, _, _⟩ :=
    verifyAttendance_success_spec M noFaults st inp now link name hfind hexp hname rfl
  refine ⟨?_, ?_, h2, (findVerificationLink_mem hfind).2.2⟩
  · rw [h1, g1]
  · simpa [fMark] using h3

/-- Witness for C10 at the sample store. -/
theorem C10_mark_used_failure_keeps_success_witness :
    findVerificationLink st0 cInp1.token = some link1 ∧
    (verifyAttendance M0 fMark st0 cInp1 0).1.verification_links =
      st0.verification_links :=
  ⟨rfl,
    (C10_mark_used_failure_keeps_success M0 st0 cInp1 0 link1 "Math" rfl (by decide)
      rfl).2.1⟩

/-- Claim C1: the check that the token is unconsumed and the write setting
`is_used` are separate store operations with no atomicity between them, so
two Confirm calls racing on the same token can both observe it unconsumed
and both return the full success response: under the schedule that runs both
SELECTs before either write, both requests finish with `success` even though
the store starts with a single unconsumed token. -/
theorem C1_interleaved_confirms_both_succeed :
    st0.verification_links = [link1] ∧ link1.is_used = false ∧
    (runSchedule M0 cInp1 cInp1 0 [true, false, true, true, true, false, false, false]
      (st0, ConfirmPhase.start, ConfirmPhase.start)).2.1 =
      ConfirmPhase.finished (HandlerResponse.confirmOk RecordStatus.present 0 true "Math"
        "Attendance confirmed successfully!") ∧
    (runSchedule M0 cInp1 cInp1 0 [true, false, true, true, true, false, false, false]
      (st0, ConfirmPhase.start, ConfirmPhase.start)).2.2 =
      ConfirmPhase.finished (HandlerResponse.confirmOk RecordStatus.present 0 true "Math"
        "Attendance confirmed successfully!") := by
  refine ⟨rfl, rfl, ?_, ?_⟩ <;>
    norm_num [runSchedule, confirmStep, findVerificationLink, singleRow, st0, cInp1,
      link1, rec1, subj1, sess1, stud1, M0, confirmDistance, calculateDistance,
      sessionSubjectName, transitionRecord, markTokenUsed, jsRound,
      confirmResponseMessage, confirmNotificationMessage]

/-- Claim C6 counterexample: with the sample unconsumed, unexpired token for
`(sess1, stud1)` outstanding, a second Issue call for the same pair succeeds
and persists a second token — no `duplicate-active-token` rejection
exists in the handler. -/
theorem C6_counterexample :
    link1.is_used = false ∧ (0:Int) < link1.expires_at ∧
    (esp32RfidCheckin env1 noCheckinFaults st0 kInp1 0).2 =
      HandlerResponse.checkinOk "RFID detected successfully" "Alice Smith" "Math"
        "https://app.example/verify/tokA" 5 ∧
    (esp32RfidCheckin env1 noCheckinFaults st0 kInp1 0).1.verification_links =
      [link1, ⟨21, 1, 100, "tokA", 0, 0, 300000, false⟩] := by
  refine ⟨rfl, by decide, ?_, ?_⟩ <;>
    norm_num [esp32RfidCheckin, singleRow, st0, link1, rec1, subj1, sess1, stud1,
      env1, kInp1, noCheckinFaults, show ¬(("tok1":String) = "tokA") from by decide,
      show ("https://app.example" ++ "/verify/" ++ "tokA" : String) =
        "https://app.example/verify/tokA" from rfl]

/-- Claim C6 (amended): Issue performs no duplicate check at all: even when
an unconsumed, unexpired token for the same `(sessionId, subjectId)` pair is
outstanding, a call whose fresh token does not collide with an existing one
succeeds and appends a second token for the pair. -/
theorem C6_duplicate_issue_not_rejected (env : IssueEnv) (f : CheckinFaults)
    (st : Store) (inp : CheckinInput) (now : Int) (session : AttendanceSession)
    (student : Profile) (subj : Subject)
    (hsess : singleRow (st.attendance_sessions.filter fun s =>
      decide (s.esp32_device_id = some inp.esp32_device_id ∧ s.is_active = true)) =
      some session)
    (hstud : singleRow (st.profiles.filter fun p =>
      decide (p.student_id = inp.student_rfid ∧ p.role = "student")) = some student)
    (hfresh : st.verification_links.any (fun l => decide (l.token = env.freshToken)) =
      false)
    (hsubj : st.subjects.find? (fun j => decide (j.id = session.subject_id)) = some subj)
    (_hdup : ∃ l ∈ st.verification_links, l.session_id = session.id ∧
      l.student_id = student.user_id ∧ l.is_used = false ∧ now < l.expires_at) :
    (esp32RfidCheckin env f st inp now).2 =
      HandlerResponse.checkinOk "RFID detected successfully" student.full_name subj.name
        (env.baseUrl ++ "/verify/" ++ env.freshToken) 5 ∧
    (esp32RfidCheckin env f st inp now).1.verification_links =
      st.verification_links ++ [⟨env.freshLinkId, session.id, student.user_id,
        env.freshToken, inp.latitude, inp.longitude, now + 5 * 60 * 1000, false⟩] := by
  unfold esp32RfidCheckin
  rw [hsess, hstud]
  simp only [hfresh, Bool.false_eq_true, if_false, hsubj]
  by_cases hn : f.notifyFails <;> by_cases hr : f.recordInsertFails <;> simp [hn, hr]

/-- Witness for the amended C6 at the sample store, where `link1` is the
outstanding active token for the pair. -/
theorem C6_duplicate_issue_not_rejected_witness :
    (∃ l ∈ st0.verification_links, l.session_id = sess1.id ∧
      l.student_id = stud1.user_id ∧ l.is_used = false ∧ (0:Int) < l.expires_at) ∧
    (esp32RfidCheckin env1 noCheckinFaults st0 kInp1 0).1.verification_links =
      st0.verification_links ++ [⟨env1.freshLinkId, sess1.id, stud1.user_id,
        env1.freshToken, kInp1.latitude, kInp1.longitude, (0:Int) + 5 * 60 * 1000,
        false⟩] := by
  have hdup : ∃ l ∈ st0.verification_links, l.session_id = sess1.id ∧
      l.student_id = stud1.user_id ∧ l.is_used = false ∧ (0:Int) < l.expires_at :=
    ⟨link1, by decide⟩
  exact ⟨hdup,
    (C6_duplicate_issue_not_rejected env1 noCheckinFaults st0 kInp1 0 sess1 stud1
      subj1 rfl rfl rfl rfl hdup).2⟩

/-- Claim C8 counterexample: starting from a store with no attendance record,
two Issue calls for the same `(session, subject)` pair leave two attendance
records for that pair — the handler inserts unconditionally and the schema
has no uniqueness constraint on the pair. -/
theorem C8_counterexample :
    ((esp32RfidCheckin env2 noCheckinFaults
        (esp32RfidCheckin env1 noCheckinFaults stNoRec kInp1 0).1 kInp1
        0).1.attendance_records.filter
      (fun r => decide (r.session_id = sess1.id ∧ r.student_id = stud1.user_id))).length
      = 2 := by
  norm_num [esp32RfidCheckin, singleRow, stNoRec, st0, link1, subj1, sess1, stud1,
    env1, env2, kInp1, noCheckinFaults,
    show ¬(("tok1":String) = "tokA") from by decide,
    show ¬(("tok1":String) = "tokB") from by decide,
    show ¬(("tokA":String) = "tokB") from by decide]

/-- Claim C8 (amended): Issue never checks for an existing record: every
successful call appends one more pending attendance record for the pair, so
the number of records for a `(session, subject)` pair grows with each call
instead of staying at most one. -/
theorem C8_issue_always_appends_record (env : IssueEnv) (f : CheckinFaults)
    (st : Store) (inp : CheckinInput) (now : Int) (session : AttendanceSession)
    (student : Profile) (subj : Subject)
    (hsess : singleRow (st.attendance_sessions.filter fun s =>
      decide (s.esp32_device_id = some inp.esp32_device_id ∧ s.is_active = true)) =
      some session)
    (hstud : singleRow (st.profiles.filter fun p =>
      decide (p.student_id = inp.student_rfid ∧ p.role = "student")) = some student)
    (hfresh : st.verification_links.any (fun l => decide (l.token = env.freshToken)) =
      false)
    (hsubj : st.subjects.find? (fun j => decide (j.id = session.subject_id)) = some subj)
    (hrec : f.recordInsertFails = false) :
    (esp32RfidCheckin env f st inp now).1.attendance_records =
      st.attendance_records ++ [⟨env.freshRecordId, session.id, student.user_id,
        RecordStatus.pending, none, none, none, some inp.latitude, some inp.longitude,
        none, some "rfid"⟩] ∧
    ((esp32RfidCheckin env f st inp now).1.attendance_records.filter
        (fun r => decide (r.session_id = session.id ∧ r.student_id = student.user_id))).length =
      (st.attendance_records.filter
        (fun r => decide (r.session_id = session.id ∧ r.student_id = student.user_id))).length
        + 1 := by
  have happ : (esp32RfidCheckin env f st inp now).1.attendance_records =
      st.attendance_records ++ [⟨env.freshRecordId, session.id, student.user_id,
        RecordStatus.pending, none, none, none, some inp.latitude, some inp.longitude,
        none, some "rfid"⟩] := by
    unfold esp32RfidCheckin
    rw [hsess, hstud]
    simp only [hfresh, Bool.false_eq_true, if_false, hsubj, hrec]
    by_cases hn : f.notifyFails <;> simp [hn]
  refine ⟨happ, ?_⟩
  rw [happ, List.filter_append]
  simp

/-- Witness for the amended C8 at the sample store without records. -/
theorem C8_issue_always_appends_record_witness :
    noCheckinFaults.recordInsertFails = false ∧
    (esp32RfidCheckin env1 noCheckinFaults stNoRec kInp1 0).1.attendance_records =
      stNoRec.attendance_records ++ [⟨env1.freshRecordId, sess1.id, stud1.user_id,
        RecordStatus.pending, none, none, none, some kInp1.latitude,
        some kInp1.longitude, none, some "rfid"⟩] :=
  ⟨rfl,
    (C8_issue_always_appends_record env1 noCheckinFaults stNoRec kInp1 0 sess1 stud1
      subj1 rfl rfl rfl rfl rfl).1⟩

/-- Claim C9: the client-side Haversine (Earth radius written `6371e3`) and
the server-side Haversine (Earth radius written `6371000`) agree on every
input, over any interpretation of the underlying Math primitives. -/
theorem C9_distance_implementations_agree (M : JsMath) (lat1 lon1 lat2 lon2 : ℚ) :
    calculateDistanceClient M lat1 lon1 lat2 lon2 =
      calculateDistance M lat1 lon1 lat2 lon2 := by
  unfold calculateDistance calculateDistanceClient
  norm_num

end ClassMateChecker
